import Mathlib

/-!
Verification of the Firebay risk-scoring logic (src/firebay.py).

Readings and thresholds are real-valued in the program; they are embedded
as rationals. The accumulated point total is a Python integer, embedded
as an integer.
-/

/-- Points contributed by the temperature reading (firebay.py lines 130 to 134):
higher temperature means higher risk. -/
def puntos_temp (temp temp_threshold : ℚ) : ℤ :=
  if temp > temp_threshold then 25
  else if temp > temp_threshold - 5 then 15
  else 0

/-- Points contributed by the humidity reading (firebay.py lines 136 to 140):
lower humidity means higher risk. -/
def puntos_hum (humedad hum_threshold : ℚ) : ℤ :=
  if humedad < hum_threshold then 25
  else if humedad < hum_threshold + 10 then 15
  else 0

/-- Points contributed by the NDVI reading (firebay.py lines 142 to 146):
lower vegetation index means higher risk. -/
def puntos_ndvi (ndvi ndvi_threshold : ℚ) : ℤ :=
  if ndvi < ndvi_threshold then 25
  else if ndvi < ndvi_threshold + 15/100 then 15
  else 0

/-- Points contributed by the NDMI reading (firebay.py lines 148 to 152):
lower vegetation-moisture index means higher risk. -/
def puntos_ndmi (ndmi ndmi_threshold : ℚ) : ℤ :=
  if ndmi < ndmi_threshold then 25
  else if ndmi < ndmi_threshold + 1/10 then 15
  else 0

/-- The risk score evaluator calcular_nivel_riesgo (firebay.py lines 126 to 154):
the four per-metric point contributions are accumulated and the total is
clamped by a final min with 100. -/
def calcular_nivel_riesgo (temp humedad ndvi ndmi temp_threshold hum_threshold ndvi_threshold ndmi_threshold : ℚ) : ℤ :=
  min (puntos_temp temp temp_threshold + puntos_hum humedad hum_threshold +
       puntos_ndvi ndvi ndvi_threshold + puntos_ndmi ndmi ndmi_threshold) 100

/-- Variant of the evaluator without the final clamp: the raw sum of the four
per-metric contributions. Stated from the claim, for comparison with the
clamped source function. -/
def calcular_nivel_riesgo_unclamped (temp humedad ndvi ndmi temp_threshold hum_threshold ndvi_threshold ndmi_threshold : ℚ) : ℤ :=
  puntos_temp temp temp_threshold + puntos_hum humedad hum_threshold +
    puntos_ndvi ndvi ndvi_threshold + puntos_ndmi ndmi ndmi_threshold

/-- The label mapping (firebay.py lines 201 to 212), applied to the computed
score. -/
def nivel_riesgo (riesgo_calculado : ℤ) : String :=
  if riesgo_calculado ≥ 75 then "CRÍTICO"
  else if riesgo_calculado ≥ 50 then "ALTO"
  else if riesgo_calculado ≥ 25 then "MEDIO"
  else "BAJO"

/-- Breach flag for temperature (firebay.py line 218): strict primary comparison. -/
def alerta_temp (temp temp_threshold : ℚ) : Bool :=
  decide (temp > temp_threshold)

/-- Breach flag for humidity (firebay.py line 222): strict primary comparison. -/
def alerta_hum (humedad hum_threshold : ℚ) : Bool :=
  decide (humedad < hum_threshold)

/-- Breach flag for NDVI (firebay.py line 226): strict primary comparison. -/
def alerta_ndvi (ndvi ndvi_threshold : ℚ) : Bool :=
  decide (ndvi < ndvi_threshold)

/-- Breach flag for NDMI (firebay.py line 230): strict primary comparison. -/
def alerta_ndmi (ndmi ndmi_threshold : ℚ) : Bool :=
  decide (ndmi < ndmi_threshold)

/-- Breach flag for MIRBI (firebay.py line 234): strict primary comparison,
high is bad. -/
def alerta_mirbi (mirbi mirbi_threshold : ℚ) : Bool :=
  decide (mirbi > mirbi_threshold)

/-- The active-alert counter (firebay.py lines 215 to 236): one increment per
breached metric, over the five metrics temperature, humidity, NDVI, NDMI
and MIRBI. -/
def alertas_activas (temp humedad ndvi ndmi mirbi temp_threshold hum_threshold ndvi_threshold ndmi_threshold mirbi_threshold : ℚ) : ℕ :=
  (if alerta_temp temp temp_threshold then 1 else 0) +
  (if alerta_hum humedad hum_threshold then 1 else 0) +
  (if alerta_ndvi ndvi ndvi_threshold then 1 else 0) +
  (if alerta_ndmi ndmi ndmi_threshold then 1 else 0) +
  (if alerta_mirbi mirbi mirbi_threshold then 1 else 0)

/-- C2: for the temperature metric, a reading strictly above the threshold
contributes 25 points, a reading in the half-open band from threshold minus 5
exclusive to the threshold inclusive contributes 15 points, and a reading at
or below threshold minus 5 contributes 0 points. -/
theorem C2_temp_bands (V T : ℚ) :
    (V > T → puntos_temp V T = 25) ∧
    (T - 5 < V → V ≤ T → puntos_temp V T = 15) ∧
    (V ≤ T - 5 → puntos_temp V T = 0) := by
  unfold puntos_temp
  refine ⟨fun h1 => ?_, fun h1 h2 => ?_, fun h1 => ?_⟩
  · rw [if_pos h1]
  · rw [if_neg (by linarith), if_pos h1]
  · rw [if_neg (by linarith), if_neg (by linarith)]

theorem C2_temp_bands_witness :
    puntos_temp 36 35 = 25 ∧ puntos_temp 32 35 = 15 ∧ puntos_temp 20 35 = 0 :=
  ⟨(C2_temp_bands 36 35).1 (by norm_num),
   (C2_temp_bands 32 35).2.1 (by norm_num) (by norm_num),
   (C2_temp_bands 20 35).2.2 (by norm_num)⟩

/-- Helper: the temperature contribution only takes the values 0, 15 and 25. -/
theorem puntos_temp_cases (V T : ℚ) :
    puntos_temp V T = 0 ∨ puntos_temp V T = 15 ∨ puntos_temp V T = 25 := by
  unfold puntos_temp; split_ifs <;> simp

/-- Helper: the humidity contribution only takes the values 0, 15 and 25. -/
theorem puntos_hum_cases (V T : ℚ) :
    puntos_hum V T = 0 ∨ puntos_hum V T = 15 ∨ puntos_hum V T = 25 := by
  unfold puntos_hum; split_ifs <;> simp

/-- Helper: the NDVI contribution only takes the values 0, 15 and 25. -/
theorem puntos_ndvi_cases (V T : ℚ) :
    puntos_ndvi V T = 0 ∨ puntos_ndvi V T = 15 ∨ puntos_ndvi V T = 25 := by
  unfold puntos_ndvi; split_ifs <;> simp

/-- Helper: the NDMI contribution only takes the values 0, 15 and 25. -/
theorem puntos_ndmi_cases (V T : ℚ) :
    puntos_ndmi V T = 0 ∨ puntos_ndmi V T = 15 ∨ puntos_ndmi V T = 25 := by
  unfold puntos_ndmi; split_ifs <;> simp

/-- Helper: the temperature contribution is monotone in the reading. -/
theorem puntos_temp_mono {t t' T : ℚ} (hle : t ≤ t') :
    puntos_temp t T ≤ puntos_temp t' T := by
  unfold puntos_temp; split_ifs <;> first | (exfalso; linarith) | norm_num

/-- Helper: the humidity contribution is antitone in the reading. -/
theorem puntos_hum_anti {h h' T : ℚ} (hle : h ≤ h') :
    puntos_hum h' T ≤ puntos_hum h T := by
  unfold puntos_hum; split_ifs <;> first | (exfalso; linarith) | norm_num

/-- Helper: the NDVI contribution is antitone in the reading. -/
theorem puntos_ndvi_anti {v v' T : ℚ} (hle : v ≤ v') :
    puntos_ndvi v' T ≤ puntos_ndvi v T := by
  unfold puntos_ndvi; split_ifs <;> first | (exfalso; linarith) | norm_num

/-- Helper: the NDMI contribution is antitone in the reading. -/
theorem puntos_ndmi_anti {m m' T : ℚ} (hle : m ≤ m') :
    puntos_ndmi m' T ≤ puntos_ndmi m T := by
  unfold puntos_ndmi; split_ifs <;> first | (exfalso; linarith) | norm_num

/-- C1 (amended): for the low-is-bad metrics, a reading strictly below the
threshold contributes 25 points; a reading in the half-open band from the
threshold inclusive up to threshold plus margin exclusive contributes 15
points, and otherwise 0 points; the margin is 10 for humidity, 15/100 for
NDVI and 1/10 for NDMI. -/
theorem C1_low_bands (V T : ℚ) :
    (V < T → puntos_hum V T = 25 ∧ puntos_ndvi V T = 25 ∧ puntos_ndmi V T = 25) ∧
    (T ≤ V → V < T + 10 → puntos_hum V T = 15) ∧
    (T + 10 ≤ V → puntos_hum V T = 0) ∧
    (T ≤ V → V < T + 15/100 → puntos_ndvi V T = 15) ∧
    (T + 15/100 ≤ V → puntos_ndvi V T = 0) ∧
    (T ≤ V → V < T + 1/10 → puntos_ndmi V T = 15) ∧
    (T + 1/10 ≤ V → puntos_ndmi V T = 0) := by
  refine ⟨fun h1 => ⟨?_, ?_, ?_⟩, fun h1 h2 => ?_, fun h1 => ?_,
          fun h1 h2 => ?_, fun h1 => ?_, fun h1 h2 => ?_, fun h1 => ?_⟩
  · unfold puntos_hum; rw [if_pos h1]
  · unfold puntos_ndvi; rw [if_pos h1]
  · unfold puntos_ndmi; rw [if_pos h1]
  · unfold puntos_hum; rw [if_neg (by linarith), if_pos h2]
  · unfold puntos_hum; rw [if_neg (by linarith), if_neg (by linarith)]
  · unfold puntos_ndvi; rw [if_neg (by linarith), if_pos h2]
  · unfold puntos_ndvi; rw [if_neg (by linarith), if_neg (by linarith)]
  · unfold puntos_ndmi; rw [if_neg (by linarith), if_pos h2]
  · unfold puntos_ndmi; rw [if_neg (by linarith), if_neg (by linarith)]

theorem C1_low_bands_witness :
    puntos_hum 20 25 = 25 ∧ puntos_hum 28 25 = 15 ∧ puntos_hum 40 25 = 0 ∧
    puntos_ndvi (45/100) (3/10) = 0 ∧ puntos_ndmi (15/100) (1/10) = 15 :=
  ⟨((C1_low_bands 20 25).1 (by norm_num)).1,
   (C1_low_bands 28 25).2.1 (by norm_num) (by norm_num),
   (C1_low_bands 40 25).2.2.1 (by norm_num),
   (C1_low_bands (45/100) (3/10)).2.2.2.2.1 (by norm_num),
   (C1_low_bands (15/100) (1/10)).2.2.2.2.2.1 (by norm_num) (by norm_num)⟩

/-- C1 counterexample: the claim assigns margin 15/100 to the NDMI metric, so
it predicts 15 points for a reading of 22/100 against a threshold of 1/10
(since 1/10 is at most 22/100 and 22/100 is below 1/10 plus 15/100); the code
uses margin 1/10 for NDMI and awards 0 points there, so a sensor state whose
other three metrics contribute nothing scores 0, not 15. -/
theorem C1_ndmi_margin_counterexample :
    (1/10 : ℚ) ≤ 22/100 ∧ (22/100 : ℚ) < 1/10 + 15/100 ∧
    puntos_ndmi (22/100) (1/10) = 0 ∧
    calcular_nivel_riesgo 0 100 1 (22/100) 100 0 0 (1/10) = 0 := by
  refine ⟨by norm_num, by norm_num, ?_, ?_⟩
  · unfold puntos_ndmi; norm_num
  · unfold calcular_nivel_riesgo puntos_temp puntos_hum puntos_ndvi puntos_ndmi
    norm_num [min_def]

/-- C3 counterexample: at the current dashboard values (MIRBI reading 38/100
against its default threshold 3/10) the MIRBI breach flag is raised, yet the
risk score over the default thresholds is exactly 45, which is fully accounted
for by the four scored metrics; a 25-point MIRBI contribution, as the claim
asserts, would make the score 70. -/
theorem C3_mirbi_not_scored_counterexample :
    alerta_mirbi (38/100) (3/10) = true ∧
    calcular_nivel_riesgo 32 28 (45/100) (15/100) 35 25 (3/10) (1/10) = 45 ∧
    puntos_temp 32 35 + puntos_hum 28 25 +
      puntos_ndvi (45/100) (3/10) + puntos_ndmi (15/100) (1/10) = 45 := by
  refine ⟨?_, ?_, ?_⟩
  · simp only [alerta_mirbi, decide_eq_true_eq]; norm_num
  · unfold calcular_nivel_riesgo puntos_temp puntos_hum puntos_ndvi puntos_ndmi
    norm_num [min_def]
  · unfold puntos_temp puntos_hum puntos_ndvi puntos_ndmi
    norm_num

/-- C3 (amended): MIRBI is not an input of the risk score evaluator; it enters
only the active-alert count, where a reading strictly above its threshold adds
exactly one alert and any other reading adds none, while the risk score is
fully determined by the temperature, humidity, NDVI and NDMI contributions. -/
theorem C3_mirbi_alert_only (t h v m mi tT hT vT mT miT : ℚ) :
    (mi > miT → alertas_activas t h v m mi tT hT vT mT miT
        = alertas_activas t h v m miT tT hT vT mT miT + 1) ∧
    (¬ mi > miT → alertas_activas t h v m mi tT hT vT mT miT
        = alertas_activas t h v m miT tT hT vT mT miT) ∧
    calcular_nivel_riesgo t h v m tT hT vT mT
        = min (puntos_temp t tT + puntos_hum h hT +
               puntos_ndvi v vT + puntos_ndmi m mT) 100 := by
  refine ⟨fun hgt => ?_, fun hng => ?_, rfl⟩
  · unfold alertas_activas alerta_mirbi
    simp only [decide_eq_true_eq]
    rw [if_pos hgt, if_neg (lt_irrefl miT)]
  · unfold alertas_activas alerta_mirbi
    simp only [decide_eq_true_eq]
    rw [if_neg hng, if_neg (lt_irrefl miT)]

theorem C3_mirbi_alert_only_witness :
    alertas_activas 32 28 (45/100) (15/100) (38/100) 35 25 (3/10) (1/10) (3/10)
      = alertas_activas 32 28 (45/100) (15/100) (3/10) 35 25 (3/10) (1/10) (3/10) + 1 :=
  (C3_mirbi_alert_only 32 28 (45/100) (15/100) (38/100) 35 25 (3/10) (1/10) (3/10)).1
    (by norm_num)

/-- C4: the label mapping is a total function of the final score with the four
non-overlapping bands CRÍTICO at 75 and above, ALTO from 50 to 74, MEDIO from
25 to 49, and BAJO below 25, including the stated boundary values. -/
theorem C4_label_bands (s : ℤ) :
    (75 ≤ s → nivel_riesgo s = "CRÍTICO") ∧
    (50 ≤ s → s < 75 → nivel_riesgo s = "ALTO") ∧
    (25 ≤ s → s < 50 → nivel_riesgo s = "MEDIO") ∧
    (s < 25 → nivel_riesgo s = "BAJO") ∧
    nivel_riesgo 75 = "CRÍTICO" ∧ nivel_riesgo 74 = "ALTO" ∧
    nivel_riesgo 50 = "ALTO" ∧ nivel_riesgo 49 = "MEDIO" ∧
    nivel_riesgo 25 = "MEDIO" ∧ nivel_riesgo 24 = "BAJO" := by
  refine ⟨fun h1 => ?_, fun h1 h2 => ?_, fun h1 h2 => ?_, fun h1 => ?_,
          ?_, ?_, ?_, ?_, ?_, ?_⟩ <;>
    unfold nivel_riesgo <;>
    split_ifs <;> first | rfl | (exfalso; omega)

theorem C4_label_bands_witness :
    nivel_riesgo 80 = "CRÍTICO" ∧ nivel_riesgo 60 = "ALTO" ∧
    nivel_riesgo 30 = "MEDIO" ∧ nivel_riesgo 10 = "BAJO" :=
  ⟨(C4_label_bands 80).1 (by norm_num),
   (C4_label_bands 60).2.1 (by norm_num) (by norm_num),
   (C4_label_bands 30).2.2.1 (by norm_num) (by norm_num),
   (C4_label_bands 10).2.2.2.1 (by norm_num)⟩

/-- C5: for every real-valued input, with no precondition, the risk score is an
integer between 0 and 100. -/
theorem C5_score_in_range (t h v m tT hT vT mT : ℚ) :
    0 ≤ calcular_nivel_riesgo t h v m tT hT vT mT ∧
    calcular_nivel_riesgo t h v m tT hT vT mT ≤ 100 := by
  have bt : 0 ≤ puntos_temp t tT := by
    rcases puntos_temp_cases t tT with hc | hc | hc <;> rw [hc] <;> norm_num
  have bh : 0 ≤ puntos_hum h hT := by
    rcases puntos_hum_cases h hT with hc | hc | hc <;> rw [hc] <;> norm_num
  have bv : 0 ≤ puntos_ndvi v vT := by
    rcases puntos_ndvi_cases v vT with hc | hc | hc <;> rw [hc] <;> norm_num
  have bm : 0 ≤ puntos_ndmi m mT := by
    rcases puntos_ndmi_cases m mT with hc | hc | hc <;> rw [hc] <;> norm_num
  unfold calcular_nivel_riesgo
  exact ⟨le_min (by linarith) (by norm_num), min_le_right _ _⟩

/-- C6: the score is monotone in each metric with the other inputs held fixed:
raising the temperature reading never lowers the score, and raising the
humidity, NDVI or NDMI reading never raises the score. -/
theorem C6_monotone (t t' h h' v v' m m' tT hT vT mT : ℚ) :
    (t ≤ t' → calcular_nivel_riesgo t h v m tT hT vT mT
        ≤ calcular_nivel_riesgo t' h v m tT hT vT mT) ∧
    (h ≤ h' → calcular_nivel_riesgo t h' v m tT hT vT mT
        ≤ calcular_nivel_riesgo t h v m tT hT vT mT) ∧
    (v ≤ v' → calcular_nivel_riesgo t h v' m tT hT vT mT
        ≤ calcular_nivel_riesgo t h v m tT hT vT mT) ∧
    (m ≤ m' → calcular_nivel_riesgo t h v m' tT hT vT mT
        ≤ calcular_nivel_riesgo t h v m tT hT vT mT) := by
  refine ⟨fun hle => ?_, fun hle => ?_, fun hle => ?_, fun hle => ?_⟩ <;>
    unfold calcular_nivel_riesgo
  · exact min_le_min
      (add_le_add (add_le_add (add_le_add (puntos_temp_mono hle) le_rfl) le_rfl) le_rfl)
      le_rfl
  · exact min_le_min
      (add_le_add (add_le_add (add_le_add le_rfl (puntos_hum_anti hle)) le_rfl) le_rfl)
      le_rfl
  · exact min_le_min
      (add_le_add (add_le_add le_rfl (puntos_ndvi_anti hle)) le_rfl)
      le_rfl
  · exact min_le_min (add_le_add le_rfl (puntos_ndmi_anti hle)) le_rfl

theorem C6_monotone_witness :
    calcular_nivel_riesgo 30 28 (45/100) (15/100) 35 25 (3/10) (1/10)
      ≤ calcular_nivel_riesgo 40 28 (45/100) (15/100) 35 25 (3/10) (1/10) :=
  (C6_monotone 30 40 28 28 (45/100) (45/100) (15/100) (15/100) 35 25 (3/10) (1/10)).1
    (by norm_num)

/-- C7: every breach flag is exactly the strict primary comparison of the
reading against its threshold, independent of the margin bands; in particular
a temperature equal to its threshold raises no breach flag yet still
contributes 15 points to the score. -/
theorem C7_breach_flags (V T : ℚ) :
    (alerta_temp V T = true ↔ V > T) ∧
    (alerta_hum V T = true ↔ V < T) ∧
    (alerta_ndvi V T = true ↔ V < T) ∧
    (alerta_ndmi V T = true ↔ V < T) ∧
    (alerta_mirbi V T = true ↔ V > T) ∧
    alerta_temp T T = false ∧ puntos_temp T T = 15 := by
  refine ⟨?_, ?_, ?_, ?_, ?_, ?_, ?_⟩
  · simp [alerta_temp]
  · simp [alerta_hum]
  · simp [alerta_ndvi]
  · simp [alerta_ndmi]
  · simp [alerta_mirbi]
  · simp [alerta_temp]
  · unfold puntos_temp
    rw [if_neg (lt_irrefl T), if_pos (by linarith)]

/-- C8: with readings 32, 28, 45/100, 15/100 against thresholds 35, 25, 3/10,
1/10 the evaluator returns exactly 45 with label MEDIO, and whenever all four
scored metrics strictly breach their primary thresholds it returns exactly 100
with label CRÍTICO. -/
theorem C8_scenarios :
    calcular_nivel_riesgo 32 28 (45/100) (15/100) 35 25 (3/10) (1/10) = 45 ∧
    nivel_riesgo (calcular_nivel_riesgo 32 28 (45/100) (15/100) 35 25 (3/10) (1/10))
      = "MEDIO" ∧
    ∀ t h v m tT hT vT mT : ℚ, t > tT → h < hT → v < vT → m < mT →
      calcular_nivel_riesgo t h v m tT hT vT mT = 100 ∧
      nivel_riesgo (calcular_nivel_riesgo t h v m tT hT vT mT) = "CRÍTICO" := by
  have base : calcular_nivel_riesgo 32 28 (45/100) (15/100) 35 25 (3/10) (1/10) = 45 := by
    unfold calcular_nivel_riesgo puntos_temp puntos_hum puntos_ndvi puntos_ndmi
    norm_num [min_def]
  refine ⟨base, ?_, fun t h v m tT hT vT mT h1 h2 h3 h4 => ?_⟩
  · rw [base]; unfold nivel_riesgo; norm_num
  · have p1 : puntos_temp t tT = 25 := by unfold puntos_temp; rw [if_pos h1]
    have p2 : puntos_hum h hT = 25 := by unfold puntos_hum; rw [if_pos h2]
    have p3 : puntos_ndvi v vT = 25 := by unfold puntos_ndvi; rw [if_pos h3]
    have p4 : puntos_ndmi m mT = 25 := by unfold puntos_ndmi; rw [if_pos h4]
    have hs : calcular_nivel_riesgo t h v m tT hT vT mT = 100 := by
      unfold calcular_nivel_riesgo; rw [p1, p2, p3, p4]; norm_num [min_def]
    exact ⟨hs, by rw [hs]; unfold nivel_riesgo; norm_num⟩

theorem C8_scenarios_witness :
    calcular_nivel_riesgo 40 10 0 0 35 25 (3/10) (1/10) = 100 ∧
    nivel_riesgo (calcular_nivel_riesgo 40 10 0 0 35 25 (3/10) (1/10)) = "CRÍTICO" :=
  C8_scenarios.2.2 40 10 0 0 35 25 (3/10) (1/10)
    (by norm_num) (by norm_num) (by norm_num) (by norm_num)

/-- C9: the evaluator is total and never signals an error: on every rational
input it takes the same arithmetic path that sums the four per-metric
contributions and clamps by a final min with 100; also at the out-of-domain
humidity reading of minus 50 it simply returns the arithmetic result 55. -/
theorem C9_total_no_error (t h v m tT hT vT mT : ℚ) :
    calcular_nivel_riesgo t h v m tT hT vT mT
      = min (puntos_temp t tT + puntos_hum h hT +
             puntos_ndvi v vT + puntos_ndmi m mT) 100 ∧
    calcular_nivel_riesgo 32 (-50) (45/100) (15/100) 35 25 (3/10) (1/10) = 55 := by
  refine ⟨rfl, ?_⟩
  unfold calcular_nivel_riesgo puntos_temp puntos_hum puntos_ndvi puntos_ndmi
  norm_num [min_def]

/-- C10: the final clamp is never active: the raw sum of the four per-metric
contributions is at most 100, the evaluator agrees with its unclamped variant
on every input, and every returned score is a multiple of 5. -/
theorem C10_clamp_inactive (t h v m tT hT vT mT : ℚ) :
    calcular_nivel_riesgo_unclamped t h v m tT hT vT mT ≤ 100 ∧
    calcular_nivel_riesgo t h v m tT hT vT mT
      = calcular_nivel_riesgo_unclamped t h v m tT hT vT mT ∧
    (5 : ℤ) ∣ calcular_nivel_riesgo t h v m tT hT vT mT := by
  have bt : puntos_temp t tT ≤ 25 ∧ (5 : ℤ) ∣ puntos_temp t tT := by
    rcases puntos_temp_cases t tT with hc | hc | hc <;> rw [hc] <;> norm_num
  have bh : puntos_hum h hT ≤ 25 ∧ (5 : ℤ) ∣ puntos_hum h hT := by
    rcases puntos_hum_cases h hT with hc | hc | hc <;> rw [hc] <;> norm_num
  have bv : puntos_ndvi v vT ≤ 25 ∧ (5 : ℤ) ∣ puntos_ndvi v vT := by
    rcases puntos_ndvi_cases v vT with hc | hc | hc <;> rw [hc] <;> norm_num
  have bm : puntos_ndmi m mT ≤ 25 ∧ (5 : ℤ) ∣ puntos_ndmi m mT := by
    rcases puntos_ndmi_cases m mT with hc | hc | hc <;> rw [hc] <;> norm_num
  have hsum : calcular_nivel_riesgo_unclamped t h v m tT hT vT mT ≤ 100 := by
    unfold calcular_nivel_riesgo_unclamped
    linarith [bt.1, bh.1, bv.1, bm.1]
  have heq : calcular_nivel_riesgo t h v m tT hT vT mT
      = calcular_nivel_riesgo_unclamped t h v m tT hT vT mT := by
    unfold calcular_nivel_riesgo calcular_nivel_riesgo_unclamped at *
    exact min_eq_left hsum
  refine ⟨hsum, heq, ?_⟩
  rw [heq]
  unfold calcular_nivel_riesgo_unclamped
  exact dvd_add (dvd_add (dvd_add bt.2 bh.2) bv.2) bm.2
